import Mathlib

/-
Verification of the template-data-pipeline repository: a shallow embedding of
the image normalizer (utils/images.py), the task validator (utils/validator.py),
the two dataset converters (scripts/download_dataset.py — lenient — and
scripts/process_dataset.py — strict), and the S3 transfer utility
(utils/upload_to_s3.py), together with theorems settling the specification
claims.
-/

set_option autoImplicit false

namespace VTB

/-! ## Model of external PIL images and numpy arrays -/

/-- Model of an external PIL image object. `mode` is the PIL color mode string
("RGB", "L", "RGBA", ...), `data` the pixel payload (abstract rationals),
`recoded` counts how many times an external re-encoding conversion was applied
to this object, so that object identity ("pass through unchanged") is
observable in the embedding. -/
structure PILImage where
  mode : String
  data : List ℚ
  recoded : Nat
deriving DecidableEq, Repr

/-- Model of the external PIL method Image.convert: produces a new image object
in the requested mode. The pixel transformation itself is external; the model
records the re-encoding event by bumping `recoded`. -/
def PILImage.convert (img : PILImage) (mode : String) : PILImage :=
  { mode := mode, data := img.data, recoded := img.recoded + 1 }

/-- Numpy dtypes distinguished by utils/images.py. -/
inductive Dtype where
  | float32
  | float64
  | uint8
  | int32
deriving DecidableEq, Repr

/-- The test the source performs with arr.dtype in [np.float32, np.float64]. -/
def Dtype.isFloat : Dtype → Bool
  | .float32 => true
  | .float64 => true
  | _ => false

/-- Model of a numpy ndarray: a dtype, a shape (list of dimension sizes, so
ndim is the length of the shape), and the flattened element data as rationals. -/
structure NpArray where
  dtype : Dtype
  shape : List Nat
  data : List ℚ
deriving DecidableEq, Repr

/-- Model of the external numpy cast astype(np.uint8) on one element: floor and
wrap into [0, 256). (The exact out-of-range behavior of the C cast is
implementation defined; the model fixes one total function for it.) -/
def astype_uint8 (q : ℚ) : ℚ := ((q.floor % 256 : ℤ) : ℚ)

/-- Model of the external numpy reduction arr.max(): raises ValueError on an
empty array, otherwise returns the maximum element. -/
def npmax : List ℚ → Except String ℚ
  | [] => .error "ValueError: zero-size array reduction"
  | x :: xs => .ok (xs.foldl max x)

/-! ## utils/images.py -/

/-- The value-normalization block of numpy_to_pil (utils/images.py lines
145-152): float arrays whose max is at most 1.0 are scaled by 255 and cast to
uint8; other float arrays and all non-uint8 arrays are cast directly; uint8
arrays pass through. -/
def np_normalize_to_uint8 (arr : NpArray) : Except String NpArray :=
  if arr.dtype.isFloat then do
    let m ← npmax arr.data
    if m ≤ 1 then
      .ok { arr with dtype := .uint8, data := arr.data.map (fun v => astype_uint8 (v * 255)) }
    else
      .ok { arr with dtype := .uint8, data := arr.data.map astype_uint8 }
  else if arr.dtype ≠ .uint8 then
    .ok { arr with dtype := .uint8, data := arr.data.map astype_uint8 }
  else
    .ok arr

/-- Model of the external constructor PIL.Image.fromarray at a given mode. -/
def image_fromarray (arr : NpArray) (mode : String) : PILImage :=
  { mode := mode, data := arr.data, recoded := 0 }

/-- numpy_to_pil from utils/images.py: normalize values to uint8, then
interpret the shape (2-D is mode L; 3-D with trailing dimension 3 is RGB, 4 is
RGBA, anything else yields no image), finally convert to the target mode if it
differs. -/
def numpy_to_pil (arr : NpArray) (mode : String) : Except String (Option PILImage) := do
  let a ← np_normalize_to_uint8 arr
  let img? : Option PILImage :=
    if a.shape.length = 2 then
      some (image_fromarray a "L")
    else if a.shape.length = 3 then
      if a.shape.getD 2 0 = 3 then some (image_fromarray a "RGB")
      else if a.shape.getD 2 0 = 4 then some (image_fromarray a "RGBA")
      else none
    else none
  match img? with
  | none => .ok none
  | some img => .ok (some (if img.mode ≠ mode then img.convert mode else img))

/-- Model of the filesystem as seen by the image loader: which paths exist, and
what PIL.Image.open would decode at an existing path (`none` when the file is
not a decodable image, in which case Image.open raises). -/
structure ImgFS where
  pathExists : String → Bool
  decode : String → Option PILImage

/-- load_from_path from utils/images.py: a nonexistent path yields no image;
an existing path is opened with PIL.Image.open, which raises on an undecodable
file; a decoded image is converted to the target mode if it differs. -/
def load_from_path (fs : ImgFS) (path : String) (mode : String) :
    Except String (Option PILImage) :=
  if ¬ fs.pathExists path then
    .ok none
  else
    match fs.decode path with
    | none => .error "UnidentifiedImageError"
    | some img => .ok (some (if img.mode ≠ mode then img.convert mode else img))

/-- The shapes of input accepted by convert_to_pil_image: an already-decoded
PIL image, a numpy array, a str/Path filesystem path, None, or any other
Python value. -/
inductive ImageInput where
  | pil (img : PILImage)
  | np (arr : NpArray)
  | path (p : String)
  | noneInput
  | other

/-- convert_to_pil_image from utils/images.py: dispatch on the input shape.
None yields no image; a PIL image is converted only if its mode differs,
otherwise passed through unchanged; a numpy array goes through numpy_to_pil;
a path goes through load_from_path; anything else yields no image. -/
def convert_to_pil_image (fs : ImgFS) (image_input : ImageInput) (mode : String) :
    Except String (Option PILImage) :=
  match image_input with
  | .noneInput => .ok none
  | .pil img => .ok (some (if img.mode ≠ mode then img.convert mode else img))
  | .np arr => numpy_to_pil arr mode
  | .path p => load_from_path fs p mode
  | .other => .ok none

/-! ## Model of Python record values (upstream dataset items) -/

/-- A Python value as it occurs in an upstream record or in the metadata dict:
None, a string, an int, a PIL image, a numpy array, a bytes payload, or a
nested dict. -/
inductive Val where
  | vNone
  | vStr (s : String)
  | vInt (n : Int)
  | vImg (img : PILImage)
  | vArr (arr : NpArray)
  | vBytes (bs : List Nat)
  | vDict (entries : List (String × Val))

/-- An upstream record: a mapping from field names to values (insertion
ordered, keys unique in actual Python dicts). -/
abbrev Record := List (String × Val)

/-- The metadata mapping passed to the validator and serialized to JSON. -/
abbrev Metadata := List (String × Val)

/-- Model of Python dict.get(k): the first value bound to the key, None when
the key is absent. -/
def pyGet (item : Record) (k : String) : Val :=
  match item.find? (fun kv => kv.1 == k) with
  | some kv => kv.2
  | none => .vNone

/-- Model of Python truthiness for the values above: None, empty string, zero,
empty bytes and empty dict are falsy; images count as truthy (plain object
truthiness); arrays are modelled truthy (the text-bearing fields this is
applied to are never arrays in the pipeline). -/
def pyTruthy : Val → Bool
  | .vNone => false
  | .vStr s => ¬ (s == "")
  | .vInt n => ¬ (n == 0)
  | .vImg _ => true
  | .vArr _ => true
  | .vBytes bs => ¬ bs.isEmpty
  | .vDict m => ¬ m.isEmpty

/-- Model of the Python expression a or b. -/
def pyOr (a b : Val) : Val := if pyTruthy a then a else b

/-- The ASCII whitespace characters stripped by Python str.strip(). -/
def is_py_space (c : Char) : Bool :=
  c == ' ' || c == '\t' || c == '\n' || c == '\r' || c == '\x0b' || c == '\x0c'

/-- Model of Python str.strip(): remove leading and trailing whitespace. -/
def py_strip (s : String) : String :=
  String.mk (((s.data.dropWhile is_py_space).reverse.dropWhile is_py_space).reverse)

/-- Model of Python str() on the values above; the rendering of non-string
values is an external detail fixed by the model. -/
def pyStr : Val → String
  | .vNone => "None"
  | .vStr s => s
  | .vInt n => toString n
  | .vImg _ => "<PIL.Image>"
  | .vArr _ => "<ndarray>"
  | .vBytes _ => "<bytes>"
  | .vDict _ => "<dict>"

/-- The isinstance(v, (Image.Image, bytes)) test of download_dataset.py. -/
def is_image_or_bytes : Val → Bool
  | .vImg _ => true
  | .vBytes _ => true
  | _ => false

/-- Dispatch a record value to the input shapes recognized by
convert_to_pil_image: a PIL image, a numpy array, a str path, None, or
anything else. -/
def Val.toImageInput : Val → ImageInput
  | .vImg img => .pil img
  | .vArr arr => .np arr
  | .vStr s => .path s
  | .vNone => .noneInput
  | _ => .other

/-! ## utils/validator.py -/

/-- Key membership in a metadata dict (the Python test fld in metadata). -/
def dict_contains (md : Metadata) (k : String) : Bool :=
  md.any (fun kv => kv.1 == k)

/-- The required_metadata_fields list of validate_task_data. -/
def required_metadata_fields : List String := ["domain", "task_id", "source"]

/-- validate_task_data from utils/validator.py: false when first_frame is
None; false when prompt is empty or strips to empty; false when final_frame is
None and goal_text is falsy; false when metadata is falsy (None or empty) or
lacks one of the required fields domain, task_id, source; true otherwise. -/
def validate_task_data (first_frame : Option PILImage) (prompt : String)
    (final_frame : Option PILImage) (goal_text : Val) (metadata : Option Metadata) : Bool :=
  if first_frame.isNone then false
  else if prompt == "" || py_strip prompt == "" then false
  else if final_frame.isNone && !(pyTruthy goal_text) then false
  else
    match metadata with
    | none => false
    | some md =>
      if md.isEmpty then false
      else if ¬ (required_metadata_fields.all (fun fld => dict_contains md fld)) then false
      else true

/-- Kinds of filesystem entries distinguished by validate_task_directory. -/
inductive FileKind where
  | file
  | dir
deriving DecidableEq, Repr

/-- Model of the on-disk filesystem: what kind of entry (if any) each path
names, and the raw contents behind a path. validate_task_directory consults
only the kinds, never the contents. -/
structure DiskFS where
  kind : String → Option FileKind
  contents : String → Option String

/-- Path.exists(): the path names some entry. -/
def DiskFS.pathExists (fs : DiskFS) (p : String) : Bool := (fs.kind p).isSome

/-- Path.is_dir(): the path names a directory. -/
def DiskFS.isDir (fs : DiskFS) (p : String) : Bool := fs.kind p == some .dir

/-- The / path join of pathlib. -/
def joinPath (dir file : String) : String := dir ++ "/" ++ file

/-- validate_task_directory from utils/validator.py: false unless the path is
an existing directory containing first_frame.png, prompt.txt,
question_metadata.json, and at least one of final_frame.png and goal.txt; all
by existence checks only. -/
def validate_task_directory (fs : DiskFS) (task_dir : String) : Bool :=
  if !(fs.pathExists task_dir) || !(fs.isDir task_dir) then false
  else if !(fs.pathExists (joinPath task_dir "first_frame.png")) then false
  else if !(fs.pathExists (joinPath task_dir "prompt.txt")) then false
  else if !(fs.pathExists (joinPath task_dir "question_metadata.json")) then false
  else if !(fs.pathExists (joinPath task_dir "final_frame.png"))
       && !(fs.pathExists (joinPath task_dir "goal.txt")) then false
  else true

/-! ## Shared pieces of the two converter scripts -/

/-- A file written by a converter: a PNG image, a text file, or the metadata
JSON document. -/
inductive FileData where
  | png (img : PILImage)
  | txt (s : String)
  | json (md : Metadata)

/-- The Python format {idx:05d}: decimal, left-padded with zeros to width 5. -/
def pad5 (n : Nat) : String :=
  let s := toString n
  String.mk (List.replicate (5 - s.length) '0') ++ s

/-- The task id f-string vtb_{split}_{idx:05d}. -/
def task_id_of (split : String) (idx : Nat) : String :=
  "vtb_" ++ split ++ "_" ++ pad5 idx

/-- The dataset truncation of both scripts (lines 32-33): if limit: dataset =
dataset.select(range(min(limit, len(dataset)))). A limit of None or 0 is falsy
and leaves the dataset untouched. -/
def apply_limit (dataset : List Record) (limit : Option Int) : List Record :=
  match limit with
  | none => dataset
  | some l => if l ≠ 0 then dataset.take (min l (dataset.length : Int)).toNat else dataset

/-- The domain fallback chain item.get("task_type") or item.get("category")
or "videothinkbench", shared by both scripts. -/
def sample_domain (item : Record) : Val :=
  pyOr (pyOr (pyGet item "task_type") (pyGet item "category")) (.vStr "videothinkbench")

/-- The prompt fallback chain item.get("question") or item.get("prompt") or
the default instruction, followed by str(...).strip(), shared by both
scripts. -/
def sample_prompt (item : Record) : String :=
  py_strip (pyStr (pyOr (pyOr (pyGet item "question") (pyGet item "prompt"))
    (.vStr "Solve this visual reasoning task.")))

namespace DownloadDataset

/-- The exclusion list of the extra dict comprehension in
scripts/download_dataset.py line 78. -/
def consumed_keys : List String := ["image", "target_image", "question", "answer", "prompt"]

/-- The extra sub-dict of download_dataset.py lines 76-80: every record field
whose key is not in the exclusion list and whose value is not a PIL image or
bytes payload. -/
def sample_extra (item : Record) : List (String × Val) :=
  item.filter (fun kv => !(consumed_keys.contains kv.1) && !(is_image_or_bytes kv.2))

/-- The metadata dict of download_dataset.py lines 70-81. -/
def sample_metadata (item : Record) (split : String) (idx : Nat) : Metadata :=
  [("domain", sample_domain item),
   ("task_id", .vStr (task_id_of split idx)),
   ("difficulty", pyGet item "difficulty"),
   ("source", .vStr "video-think-bench/VideoThinkBench"),
   ("split", .vStr split),
   ("extra", .vDict (sample_extra item))]

/-- process_sample from scripts/download_dataset.py (the lenient pipeline):
normalize the first frame (skip on no image), extract prompt and goal, build
metadata, validate, and on success write first_frame.png, then final_frame.png
or goal.txt, then prompt.txt and question_metadata.json. Returns the success
flag together with the list of file writes performed. -/
def process_sample (fs : ImgFS) (item : Record) (idx : Nat) (split : String)
    (output_dir : String) : Except String (Bool × List (String × FileData)) := do
  let ff ← convert_to_pil_image fs (Val.toImageInput (pyGet item "image")) "RGB"
  match ff with
  | none => return (false, [])
  | some first_frame =>
    let prompt := sample_prompt item
    let final_frame ← convert_to_pil_image fs (Val.toImageInput (pyGet item "target_image")) "RGB"
    let goal_text := pyOr (pyGet item "answer") (pyGet item "target_text")
    let metadata := sample_metadata item split idx
    if !(validate_task_data (some first_frame) prompt final_frame goal_text (some metadata)) then
      return (false, [])
    else
      let task_dir := output_dir ++ "/" ++ pyStr (sample_domain item) ++ "_task/"
        ++ task_id_of split idx
      let goal_writes : List (String × FileData) :=
        match final_frame with
        | some fin => [(joinPath task_dir "final_frame.png", .png fin)]
        | none =>
          if pyTruthy goal_text then
            [(joinPath task_dir "goal.txt", .txt (py_strip (pyStr goal_text)))]
          else []
      return (true,
        [(joinPath task_dir "first_frame.png", .png first_frame)] ++ goal_writes
          ++ [(joinPath task_dir "prompt.txt", .txt prompt),
              (joinPath task_dir "question_metadata.json", .json metadata)])

/-- The enumeration loop of download_videothinkbench: process each record with
its index, counting successes and accumulating writes. -/
def run_samples (fs : ImgFS) (split : String) (output_dir : String) :
    List Record → Nat → Except String (Nat × List (String × FileData))
  | [], _ => .ok (0, [])
  | item :: rest, idx => do
    let (ok, writes) ← process_sample fs item idx split output_dir
    let (n, more) ← run_samples fs split output_dir rest (idx + 1)
    return ((if ok then 1 else 0) + n, writes ++ more)

/-- download_videothinkbench from scripts/download_dataset.py: apply the
optional limit, then process every remaining record in order starting at
index 0. -/
def download_videothinkbench (fs : ImgFS) (records : List Record) (split : String)
    (limit : Option Int) (output_dir : String) :
    Except String (Nat × List (String × FileData)) :=
  run_samples fs split output_dir (apply_limit records limit) 0

end DownloadDataset

namespace ProcessDataset

/-- process_sample from scripts/process_dataset.py (the strict pipeline):
normalize the first frame (skip on no image), extract the prompt, require a
normalized final frame (skip on no image), validate with only the three
positional arguments, and on success write first_frame.png, final_frame.png
and prompt.txt (no metadata file). -/
def process_sample (fs : ImgFS) (item : Record) (idx : Nat) (split : String)
    (output_dir : String) : Except String (Bool × List (String × FileData)) := do
  let ff ← convert_to_pil_image fs (Val.toImageInput (pyGet item "image")) "RGB"
  match ff with
  | none => return (false, [])
  | some first_frame =>
    let prompt := sample_prompt item
    let fin ← convert_to_pil_image fs (Val.toImageInput (pyGet item "target_image")) "RGB"
    match fin with
    | none => return (false, [])
    | some final_frame =>
      if !(validate_task_data (some first_frame) prompt (some final_frame) .vNone none) then
        return (false, [])
      else
        let task_dir := output_dir ++ "/" ++ pyStr (sample_domain item) ++ "_task/"
          ++ task_id_of split idx
        return (true,
          [(joinPath task_dir "first_frame.png", .png first_frame),
           (joinPath task_dir "final_frame.png", .png final_frame),
           (joinPath task_dir "prompt.txt", .txt prompt)])

/-- The enumeration loop of download_videothinkbench in
scripts/process_dataset.py. -/
def run_samples (fs : ImgFS) (split : String) (output_dir : String) :
    List Record → Nat → Except String (Nat × List (String × FileData))
  | [], _ => .ok (0, [])
  | item :: rest, idx => do
    let (ok, writes) ← process_sample fs item idx split output_dir
    let (n, more) ← run_samples fs split output_dir rest (idx + 1)
    return ((if ok then 1 else 0) + n, writes ++ more)

/-- download_videothinkbench from scripts/process_dataset.py. -/
def download_videothinkbench (fs : ImgFS) (records : List Record) (split : String)
    (limit : Option Int) (output_dir : String) :
    Except String (Nat × List (String × FileData)) :=
  run_samples fs split output_dir (apply_limit records limit) 0

end ProcessDataset

/-! ## utils/upload_to_s3.py -/

/-- Model of the external pathlib Path.suffix: the final dotted extension of
the last path component, empty for dotless names and for a bare leading-dot
name. -/
def path_suffix (p : String) : String :=
  let base := (p.splitOn "/").getLastD ""
  match base.splitOn "." with
  | [] => ""
  | [_] => ""
  | first :: rest =>
    if first = "" ∧ rest.length = 1 then ""
    else "." ++ rest.getLastD ""

/-- get_content_type from utils/upload_to_s3.py: a fixed extension table with
application/octet-stream as the default. -/
def get_content_type (file_path : String) : String :=
  let extension := (path_suffix file_path).toLower
  let content_types : List (String × String) :=
    [(".png", "image/png"), (".jpg", "image/jpeg"), (".jpeg", "image/jpeg"),
     (".json", "application/json"), (".txt", "text/plain"), (".mp4", "video/mp4")]
  match content_types.find? (fun kv => kv.1 == extension) with
  | some kv => kv.2
  | none => "application/octet-stream"

/-- Model of the external boto3 S3 client: whether the single-object upload of
a given bucket/key/content-type succeeds; an unsuccessful upload raises a
client error. -/
structure S3Client where
  uploadOk : String → String → String → Bool

/-- upload_file_to_s3 from utils/upload_to_s3.py: computes the content type
and performs the single upload. There is no try/except in the source, so a
failing upload propagates the client error; the function can only return
True. -/
def upload_file_to_s3 (s3_client : S3Client) (file_path bucket_name s3_key : String) :
    Except String Bool :=
  let content_type := get_content_type file_path
  if s3_client.uploadOk bucket_name s3_key content_type then .ok true
  else .error ("ClientError: " ++ s3_key)

/-- Model of the Python call .replace with a backslash pattern and a slash
replacement in the S3 key computation: path separators normalized to forward
slashes. -/
def normalize_seps (s : String) : String :=
  String.mk (s.data.map (fun c => if c == '\\' then '/' else c))

/-- The upload loop of upload_directory_to_s3: for each file, compute the S3
key from the prefix and the relative path (backslashes normalized), upload,
and update the uploaded/failed counters. The failed branch mirrors the dead
else of the source (upload_file_to_s3 never returns False). -/
def upload_loop (s3_client : S3Client) (local_dir bucket_name s3_pre : String) :
    List String → Nat → Nat → Except String (Nat × Nat)
  | [], uploaded, failed => .ok (uploaded, failed)
  | f :: rest, uploaded, failed => do
    let s3_key := normalize_seps (s3_pre ++ f)
    let ok ← upload_file_to_s3 s3_client (joinPath local_dir f) bucket_name s3_key
    if ok then upload_loop s3_client local_dir bucket_name s3_pre rest (uploaded + 1) failed
    else upload_loop s3_client local_dir bucket_name s3_pre rest uploaded (failed + 1)

/-- upload_directory_to_s3 from utils/upload_to_s3.py, with the recursive walk
of regular files modelled as the list of their paths relative to local_dir in
walk order. Returns the (uploaded, failed) counts. -/
def upload_directory_to_s3 (s3_client : S3Client) (local_dir : String)
    (files : List String) (bucket_name : String) (s3_pre : String) :
    Except String (Nat × Nat) :=
  upload_loop s3_client local_dir bucket_name s3_pre files 0 0

/-! ## Concrete inputs used by the claim theorems and witnesses -/

/-- A decoded RGB image with empty payload. -/
def imgRGB : PILImage := { mode := "RGB", data := [], recoded := 0 }

/-- A second decoded RGB image, distinct payload. -/
def imgRGB2 : PILImage := { mode := "RGB", data := [1], recoded := 0 }

/-- A filesystem with no readable images. -/
def noFS : ImgFS := { pathExists := fun _ => false, decode := fun _ => none }

/-- A filesystem where bad.img exists but is not a decodable image. -/
def badFS : ImgFS := { pathExists := fun p => p == "bad.img", decode := fun _ => none }

/-- A metadata dict holding exactly the three required keys. -/
def mdOK : Metadata := [("domain", .vStr "d"), ("task_id", .vStr "t"), ("source", .vStr "s")]

/-- A record with a valid first frame, a valid final frame and a prompt: the
strict pipeline should accept it according to the spec. -/
def strictItem : Record :=
  [("image", .vImg imgRGB), ("target_image", .vImg imgRGB2),
   ("question", .vStr "Move the red block")]

/-- A record carrying a consumed field (target_text) that is neither in the
five-key exclusion list of the code nor an image/bytes payload. -/
def extraProbeItem : Record :=
  [("image", .vImg imgRGB), ("question", .vStr "q"), ("target_text", .vStr "x")]

/-- A float array with a negative value: its maximum is at most 1 although the
value lies outside [0, 1]. -/
def negFloatArr : NpArray := { dtype := .float64, shape := [1, 1], data := [-2] }

/-- A float array with all values in [0, 1]. -/
def halfArr : NpArray := { dtype := .float64, shape := [1, 1], data := [1 / 2] }

/-- A float array whose maximum exceeds 1. -/
def fiveArr : NpArray := { dtype := .float64, shape := [1, 1], data := [5] }

/-- An S3 client model for which exactly the key datasets/a.png fails. -/
def failingS3 : S3Client := { uploadOk := fun _ k _ => ¬ (k == "datasets/a.png") }

/-! ## Claim theorems -/

/-- C1: the claim says that in the strict pipeline a record with a valid first
frame, a non-empty prompt and a valid final frame passes in-memory validation
with no metadata requirement and gets its task directory written. On the code,
validate_task_data is called with metadata defaulting to None and rejects it,
so process_sample returns False and writes nothing — shown here by evaluating
the strict pipeline at such a record, and in general: with metadata = None the
validator returns false for every input. -/
theorem C1_strict_pipeline_eval :
    ProcessDataset.process_sample noFS strictItem 0 "test" "data/questions" = .ok (false, []) ∧
    ∀ (ff fin : PILImage) (p : String) (g : Val),
      validate_task_data (some ff) p (some fin) g none = false := by
  constructor
  · rfl
  · intro ff fin p g
    simp only [validate_task_data]
    split
    · rfl
    · split
      · rfl
      · split <;> rfl

/-- C4: the claim says the image normalizer never raises and an undecodable
file yields no image. On the code, load_from_path calls PIL.Image.open on any
existing path, which raises on an undecodable file, and the exception
propagates out of convert_to_pil_image. -/
theorem C4_undecodable_file_raises :
    convert_to_pil_image badFS (.path "bad.img") "RGB" = .error "UnidentifiedImageError" := rfl

/-- C6: in-memory validation returns false whenever the prompt is empty or
whitespace-only (its strip is empty), regardless of the frames, the goal text
and the metadata. -/
theorem C6_whitespace_prompt_invalid (first_frame final_frame : Option PILImage)
    (prompt : String) (goal_text : Val) (metadata : Option Metadata)
    (h : py_strip prompt = "") :
    validate_task_data first_frame prompt final_frame goal_text metadata = false := by
  cases first_frame <;> simp [validate_task_data, h]

/-- Witness for C6 at a whitespace-only prompt with every other field
well-formed. -/
theorem C6_whitespace_prompt_invalid_witness :
    validate_task_data (some imgRGB) "  " (some imgRGB2) (.vStr "g") (some mdOK) = false :=
  C6_whitespace_prompt_invalid (some imgRGB) (some imgRGB2) "  " (.vStr "g") (some mdOK) rfl

/-- C8: an already-decoded image whose mode equals the target mode is returned
as the identical object, with no re-encoding event; when the modes differ, the
result is exactly the externally converted object, a fresh re-encode. -/
theorem C8_pil_mode_passthrough (fs : ImgFS) (img : PILImage) (mode : String) :
    (img.mode = mode → convert_to_pil_image fs (.pil img) mode = .ok (some img)) ∧
    (img.mode ≠ mode →
      convert_to_pil_image fs (.pil img) mode = .ok (some (img.convert mode)) ∧
      (img.convert mode).recoded = img.recoded + 1) := by
  constructor
  · intro h
    simp [convert_to_pil_image, h]
  · intro h
    simp [convert_to_pil_image, h, PILImage.convert]

/-- Witness for C8: the RGB image passes through unchanged at target RGB and
is converted at target L. -/
theorem C8_pil_mode_passthrough_witness :
    convert_to_pil_image noFS (.pil imgRGB) "RGB" = .ok (some imgRGB) ∧
    convert_to_pil_image noFS (.pil imgRGB) "L" = .ok (some (imgRGB.convert "L")) :=
  ⟨(C8_pil_mode_passthrough noFS imgRGB "RGB").1 rfl,
   ((C8_pil_mode_passthrough noFS imgRGB "L").2 (by decide)).1⟩

/-- C2: the claim says a single file's upload failure is counted in the failed
count and does not stop the remaining uploads, and that the function returns
(succeeded, failed) counts covering all files. On the code, upload_file_to_s3
has no try/except (ClientError is imported but never used), so a failing
upload raises out of upload_directory_to_s3: at a directory with two files one
of which fails to upload, the run aborts with the client error — whichever
position the failing file occupies — and no counts are returned at all. -/
theorem C2_upload_failure_aborts :
    upload_directory_to_s3 failingS3 "data" ["a.png", "b.png"] "bkt" "datasets/" =
      .error "ClientError: datasets/a.png" ∧
    upload_directory_to_s3 failingS3 "data" ["b.png", "a.png"] "bkt" "datasets/" =
      .error "ClientError: datasets/a.png" := ⟨rfl, rfl⟩

/-- The nine-key exclusion list the claim describes for the extra sub-mapping:
every field consumed by the conversion. -/
def consumed_keys_claim : List String :=
  ["image", "target_image", "question", "prompt", "answer", "target_text",
   "task_type", "category", "difficulty"]

/-- The claim's version of the extra sub-mapping: drop all nine consumed
fields as well as image/bytes payloads. -/
def sample_extra_claim (item : Record) : List (String × Val) :=
  item.filter (fun kv => !(consumed_keys_claim.contains kv.1) && !(is_image_or_bytes kv.2))

/-- C3 counterexample: at a record carrying target_text (consumed by the
conversion as a goal-text fallback), the code keeps target_text inside extra
while the claim requires extra to be empty. -/
theorem C3_extra_counterexample :
    DownloadDataset.sample_extra extraProbeItem = [("target_text", .vStr "x")] ∧
    sample_extra_claim extraProbeItem = [] := ⟨rfl, rfl⟩

/-- C3 (amended): the metadata built by the lenient pipeline carries an extra
sub-mapping that contains exactly the record fields whose key is not among the
five keys image, target_image, question, answer, prompt and whose value is not
an image/bytes payload; the consumed fields target_text, task_type, category
and difficulty are not excluded and pass through into extra. -/
theorem C3_extra_membership (item : Record) (split : String) (idx : Nat)
    (k : String) (v : Val) :
    (("extra", Val.vDict (DownloadDataset.sample_extra item)) ∈
      DownloadDataset.sample_metadata item split idx) ∧
    ((k, v) ∈ DownloadDataset.sample_extra item ↔
      (k, v) ∈ item ∧ k ∉ DownloadDataset.consumed_keys ∧ is_image_or_bytes v = false) := by
  constructor
  · simp [DownloadDataset.sample_metadata]
  · simp [DownloadDataset.sample_extra, List.mem_filter]

/-- The claim's version of the float value normalization: scale by 255 only
when every value lies inside [0, 1], otherwise cast directly. -/
def np_normalize_claim (arr : NpArray) : NpArray :=
  if arr.dtype.isFloat then
    if arr.data.all (fun v => decide (0 ≤ v ∧ v ≤ 1)) then
      { arr with dtype := .uint8, data := arr.data.map (fun v => astype_uint8 (v * 255)) }
    else
      { arr with dtype := .uint8, data := arr.data.map astype_uint8 }
  else arr

/-- C5 counterexample: a float array holding only -2 has a value outside
[0, 1], so the claim prescribes a direct cast; the code tests arr.max() <= 1.0,
which holds, and scales by 255 instead — the two results differ. -/
theorem C5_scaling_counterexample :
    np_normalize_to_uint8 negFloatArr =
      .ok { dtype := .uint8, shape := [1, 1], data := [2] } ∧
    np_normalize_claim negFloatArr = { dtype := .uint8, shape := [1, 1], data := [254] } ∧
    (2 : ℚ) ≠ 254 := by
  have hcast : astype_uint8 (-(2 * 255) : ℚ) = 2 := by
    have hmul : (-(2 * 255) : ℚ) = -510 := by norm_num
    simp only [astype_uint8, hmul]
    decide
  refine ⟨?_, rfl, by norm_num⟩
  simp [np_normalize_to_uint8, negFloatArr, npmax, Dtype.isFloat, Bind.bind, Except.bind,
    hcast, show ((-2 : ℚ) ≤ 1) by norm_num]

/-- C5 (amended): for a float array the choice is governed by the maximum
value: when arr.max() is at most 1.0 every value is scaled by 255 before the
uint8 cast (even values below 0, which lie outside [0, 1]); only when the
maximum exceeds 1.0 is the array cast directly without scaling. -/
theorem C5_float_scaling (arr : NpArray) (m : ℚ)
    (hf : arr.dtype.isFloat = true) (hm : npmax arr.data = .ok m) :
    (m ≤ 1 → np_normalize_to_uint8 arr =
      .ok { arr with
        dtype := .uint8,
        data := arr.data.map (fun v => astype_uint8 (v * 255)) }) ∧
    (1 < m → np_normalize_to_uint8 arr =
      .ok { arr with dtype := .uint8, data := arr.data.map astype_uint8 }) := by
  constructor
  · intro h
    simp [np_normalize_to_uint8, hf, hm, Bind.bind, Except.bind, h]
  · intro h
    simp [np_normalize_to_uint8, hf, hm, Bind.bind, Except.bind, h.not_le]

/-- Witness for C5 at a unit-range array (scaled) and at an array whose
maximum exceeds 1 (cast directly). -/
theorem C5_float_scaling_witness :
    np_normalize_to_uint8 halfArr =
      .ok { halfArr with
        dtype := .uint8,
        data := halfArr.data.map (fun v => astype_uint8 (v * 255)) } ∧
    np_normalize_to_uint8 fiveArr =
      .ok { fiveArr with dtype := .uint8, data := fiveArr.data.map astype_uint8 } :=
  ⟨(C5_float_scaling halfArr (1 / 2) rfl rfl).1 (by norm_num),
   (C5_float_scaling fiveArr 5 rfl rfl).2 (by norm_num)⟩

/-- C7: on-disk validation returns false for a path that does not exist or is
not a directory, and for an existing directory missing any one required file
(first_frame.png, prompt.txt, question_metadata.json, or both of
final_frame.png and goal.txt); and it consults only the existence/kind map of
the filesystem, never file contents. -/
theorem C7_directory_validation (fs gs : DiskFS) (task_dir : String) :
    (fs.pathExists task_dir = false ∨ fs.isDir task_dir = false →
      validate_task_directory fs task_dir = false) ∧
    (fs.pathExists (joinPath task_dir "first_frame.png") = false →
      validate_task_directory fs task_dir = false) ∧
    (fs.pathExists (joinPath task_dir "prompt.txt") = false →
      validate_task_directory fs task_dir = false) ∧
    (fs.pathExists (joinPath task_dir "question_metadata.json") = false →
      validate_task_directory fs task_dir = false) ∧
    (fs.pathExists (joinPath task_dir "final_frame.png") = false ∧
        fs.pathExists (joinPath task_dir "goal.txt") = false →
      validate_task_directory fs task_dir = false) ∧
    (fs.kind = gs.kind →
      validate_task_directory fs task_dir = validate_task_directory gs task_dir) := by
  refine ⟨?_, ?_, ?_, ?_, ?_, ?_⟩
  · rintro (h | h) <;> simp [validate_task_directory, h]
  · intro h
    unfold validate_task_directory
    repeat' split <;> simp_all
  · intro h
    unfold validate_task_directory
    repeat' split <;> simp_all
  · intro h
    unfold validate_task_directory
    repeat' split <;> simp_all
  · rintro ⟨h1, h2⟩
    unfold validate_task_directory
    repeat' split <;> simp_all
  · intro h
    simp [validate_task_directory, DiskFS.pathExists, DiskFS.isDir, h]

/-- An empty on-disk filesystem. -/
def fsEmpty : DiskFS := { kind := fun _ => none, contents := fun _ => none }

/-- A filesystem holding a single empty task directory. -/
def fsDirOnly : DiskFS :=
  { kind := fun p => if p == "data/questions/t" then some .dir else none,
    contents := fun _ => none }

/-- Witness for C7: a nonexistent path, and an existing directory missing
first_frame.png, both fail validation. -/
theorem C7_directory_validation_witness :
    validate_task_directory fsEmpty "data/questions/t" = false ∧
    validate_task_directory fsDirOnly "data/questions/t" = false :=
  ⟨(C7_directory_validation fsEmpty fsEmpty "data/questions/t").1 (Or.inl rfl),
   (C7_directory_validation fsDirOnly fsDirOnly "data/questions/t").2.1 rfl⟩

/-- C9: a limit of 0 is falsy in Python, so no truncation happens and both
entry points process every record of the split, exactly as with no limit;
only a strictly positive limit l restricts processing to the first l records
of the iteration order. -/
theorem C9_limit_zero_processes_all (fs : ImgFS) (records : List Record)
    (split output_dir : String) (l : Int) :
    DownloadDataset.download_videothinkbench fs records split (some 0) output_dir =
      DownloadDataset.download_videothinkbench fs records split none output_dir ∧
    ProcessDataset.download_videothinkbench fs records split (some 0) output_dir =
      ProcessDataset.download_videothinkbench fs records split none output_dir ∧
    apply_limit records (some 0) = records ∧
    (0 < l → apply_limit records (some l) = records.take l.toNat) := by
  have h0 : apply_limit records (some 0) = records := by simp [apply_limit]
  refine ⟨?_, ?_, h0, ?_⟩
  · rw [DownloadDataset.download_videothinkbench, h0]; rfl
  · rw [ProcessDataset.download_videothinkbench, h0]; rfl
  · intro h
    simp only [apply_limit, if_pos (show l ≠ 0 by omega)]
    rw [List.take_eq_take]
    omega

/-- Witness for C9: the lenient entry point at limit 0 behaves as unlimited on
a two-record dataset, and limit 1 keeps exactly the first record. -/
theorem C9_limit_zero_processes_all_witness :
    DownloadDataset.download_videothinkbench noFS [strictItem, extraProbeItem] "test"
        (some 0) "out" =
      DownloadDataset.download_videothinkbench noFS [strictItem, extraProbeItem] "test"
        none "out" ∧
    apply_limit [strictItem, extraProbeItem] (some 1) =
      [strictItem, extraProbeItem].take (1 : Int).toNat :=
  ⟨(C9_limit_zero_processes_all noFS [strictItem, extraProbeItem] "test" "out" 1).1,
   (C9_limit_zero_processes_all noFS [strictItem, extraProbeItem] "test" "out" 1).2.2.2
     (by norm_num)⟩

/-- C10: in lenient in-memory validation with final_frame absent, an empty
goal_text string is falsy and validation returns false, while any non-empty
goal_text (in particular a whitespace-only one) is truthy and validation
returns true when the first frame, the prompt and the metadata are
well-formed. -/
theorem C10_goal_text_empty_vs_whitespace (first_frame : PILImage) (prompt : String)
    (md : Metadata) (hp : py_strip prompt ≠ "")
    (h1 : dict_contains md "domain" = true) (h2 : dict_contains md "task_id" = true)
    (h3 : dict_contains md "source" = true) :
    validate_task_data (some first_frame) prompt none (.vStr "") (some md) = false ∧
    ∀ g : String, g ≠ "" →
      validate_task_data (some first_frame) prompt none (.vStr g) (some md) = true := by
  have hp0 : prompt ≠ "" := by
    intro h
    exact hp (by rw [h]; rfl)
  have hmd : md.isEmpty = false := by
    cases md with
    | nil => simp [dict_contains] at h1
    | cons a l => rfl
  constructor
  · simp [validate_task_data, pyTruthy, hp0, hp]
  · intro g hg
    simp [validate_task_data, pyTruthy, hp0, hp, hmd, required_metadata_fields,
      h1, h2, h3, hg]

/-- Witness for C10 at a concrete well-formed task: empty goal text fails,
whitespace goal text passes. -/
theorem C10_goal_text_empty_vs_whitespace_witness :
    validate_task_data (some imgRGB) "go" none (.vStr "") (some mdOK) = false ∧
    validate_task_data (some imgRGB) "go" none (.vStr " ") (some mdOK) = true :=
  ⟨(C10_goal_text_empty_vs_whitespace imgRGB "go" mdOK (by decide) rfl rfl rfl).1,
   (C10_goal_text_empty_vs_whitespace imgRGB "go" mdOK (by decide) rfl rfl rfl).2
     " " (by decide)⟩

end VTB
